import Mathlib

/-!
Shallow embedding of the RobloxAsset pipeline frontend
(src/frontend/src/app/2d/page.tsx, src/frontend/src/app/gallery/page.tsx,
and the two unnamed client pages: the Final page driving the Meshy
finalization poll loop, and the Prototype page).

Stateful React handlers are embedded as pure state-transition functions:
each handler takes the page's current state plus the outcome of the HTTP
request it performs, and returns the new state together with the number of
HTTP requests it issued (0 when a client-side guard short-circuits, 1
otherwise — the handlers never retry).  JavaScript truthiness of strings
(empty string is falsy) and of numbers (0 is falsy) is made explicit where
the source relies on it.
-/

namespace RobloxAsset

/-- Outcome of a single `fetch` call as the page code observes it:
`ok` (2xx with parsed JSON body), `httpError` (completed with non-2xx;
`body` is the raw response text read by `await res.text()`), or
`threw` (the fetch itself threw, e.g. a network failure). -/
inductive HttpOutcome (α : Type) where
  | ok (data : α)
  | httpError (body : String)
  | threw (msg : String)
deriving DecidableEq

/-- Terminal check used by the Final page's poll tick:
`data.status === "SUCCEEDED" || data.status === "FAILED"`. -/
def isTerminalStatus (st : String) : Bool :=
  st == "SUCCEEDED" || st == "FAILED"

/-- The FinalizationJob snapshot JSON held in the Final page's `task` state
(fields read by the page: `task_id`, `status`, `progress`, `error_message`,
`gallery_item_id`). -/
structure TaskSnapshot where
  task_id : String
  status : String
  progress : Nat
  error_message : Option String
  gallery_item_id : Option Nat
deriving DecidableEq

/-- The FinalModel JSON held in the Final page's `model` state. -/
structure FinalModel where
  obj_url : Option String
  fbx_url : Option String
  texture_url : Option String
deriving DecidableEq

/-- State of the Final page component (src/unnamed/part_000 `FinalPage`):
the `task`, `model`, `loading` and `error` useState hooks, plus
`intervalActive`, which records whether the polling `setInterval` handle is
live (set by the first `useEffect`, cleared by `clearInterval` when a
terminal status is adopted). -/
structure FinalPageState where
  task : Option TaskSnapshot
  model : Option FinalModel
  loading : Bool
  error : Option String
  intervalActive : Bool
deriving DecidableEq

/-- The `startTask` handler of the Final page.  Guard: `if (!prototypeId)
return;` — `prototypeId` comes from `searchParams.get`, so it is absent or a
string, and the empty string is falsy.  Otherwise it POSTs `/generate/meshy`
once; on 2xx it stores the parsed job (`setTask(data)`), on non-2xx it
throws `new Error(await res.text())` which the catch stores in `error`, and
a thrown fetch stores the thrown message; `loading` is reset in `finally`. -/
def startTask (prototypeId : Option String) (s : FinalPageState)
    (resp : HttpOutcome TaskSnapshot) : FinalPageState × Nat :=
  match prototypeId with
  | none => (s, 0)
  | some pid =>
    if pid = "" then (s, 0)
    else
      match resp with
      | .ok d => ({ s with task := some d, loading := false, error := none }, 1)
      | .httpError body => ({ s with loading := false, error := some body }, 1)
      | .threw msg => ({ s with loading := false, error := some msg }, 1)

/-- The polling `useEffect` body: it installs the interval exactly when
`task?.task_id` is truthy (present and non-empty). -/
def startPollingEffect (s : FinalPageState) : FinalPageState :=
  { s with intervalActive :=
      match s.task with
      | some t => t.task_id != ""
      | none => false }

/-- Outcome of one poll tick's request `GET /generate/meshy/task/{taskId}`:
a parsed snapshot on 2xx, `httpError` when `!res.ok` (the tick does
`return;`), `networkError` when the fetch threw (the tick logs and
continues). -/
inductive PollResult where
  | success (data : TaskSnapshot)
  | httpError
  | networkError
deriving DecidableEq

/-- One tick of the polling interval (src/unnamed/part_000 lines 40-52).
If the interval has been cleared no tick runs.  A live tick that gets a 2xx
response adopts the returned snapshot verbatim (`setTask(data)`) and clears
the interval exactly when the returned status is terminal; a non-2xx
response (`if (!res.ok) return;`) and a thrown fetch (`catch` →
`console.error`) both leave the state untouched with the interval still
scheduled. -/
def pollTick (s : FinalPageState) (r : PollResult) : FinalPageState :=
  if s.intervalActive then
    match r with
    | .success d =>
        { s with task := some d, intervalActive := !(isTerminalStatus d.status) }
    | .httpError => s
    | .networkError => s
  else s

/-- A sequence of poll tick outcomes applied in order. -/
def runPolls (s : FinalPageState) (rs : List PollResult) : FinalPageState :=
  rs.foldl pollTick s

/-- The progress the page displays and has recorded: `task.progress ?? 0`
(0 when no task snapshot is held). -/
def recordedProgress (s : FinalPageState) : Nat :=
  match s.task with
  | some t => t.progress
  | none => 0

/-- The dependency pair of the FinalModel-fetch `useEffect`:
`[task?.gallery_item_id, task?.status]`.  React re-runs the effect whenever
either entry changes between renders. -/
def modelEffectDeps (t : Option TaskSnapshot) : Option Nat × Option String :=
  (t.bind TaskSnapshot.gallery_item_id, t.map TaskSnapshot.status)

/-- Whether a run of the FinalModel-fetch effect actually issues the GET:
the body guard is `if (!task?.gallery_item_id) return;`, so the request goes
out exactly when `gallery_item_id` is present and nonzero (0 is falsy in
JavaScript). -/
def modelFetchIssued (t : Option TaskSnapshot) : Bool :=
  match t.bind TaskSnapshot.gallery_item_id with
  | some gid => gid != 0
  | none => false

/-- Number of FinalModel GET requests issued by the effect across a sequence
of renders, given the `task` value at the previous render (`prev`) and the
successive `task` values at the following renders: the effect re-runs at a
render exactly when its dependency pair changed, and then issues the request
exactly when the guard passes. -/
def countModelFetches (prev : Option TaskSnapshot) :
    List (Option TaskSnapshot) → Nat
  | [] => 0
  | t :: ts =>
      (if modelEffectDeps t ≠ modelEffectDeps prev ∧ modelFetchIssued t then 1 else 0)
        + countModelFetches t ts

/-- Total FinalModel GET requests from component mount onward: the effect
also runs once on mount (with the `task` value at mount, `t0`), then on
every dependency change. -/
def countModelFetchesFromMount (t0 : Option TaskSnapshot)
    (ts : List (Option TaskSnapshot)) : Nat :=
  (if modelFetchIssued t0 then 1 else 0) + countModelFetches t0 ts

/-- Applying the outcome of one FinalModel GET (src/unnamed/part_000 lines
57-68): `if (res.ok) setModel(await res.json())` — only a 2xx response
changes anything, and it only sets `model`; a non-2xx response does nothing
and a thrown fetch is logged and swallowed. -/
def applyModelFetch (s : FinalPageState) (resp : HttpOutcome FinalModel) :
    FinalPageState :=
  match resp with
  | .ok m => { s with model := some m }
  | .httpError _ => s
  | .threw _ => s

/-- JavaScript's `String.prototype.trim()`: drop leading and trailing
whitespace.  Written by structural recursion over the character list so that
it evaluates on concrete inputs. -/
def jsTrim (s : String) : String :=
  ⟨((s.data.dropWhile Char.isWhitespace).reverse.dropWhile
      Char.isWhitespace).reverse⟩

/-- The ConceptImage JSON stored in the 2D page's `results` list (fields the
page reads: `id`, `prompt`, `name`, `image_url`). -/
structure ConceptImage where
  id : Nat
  prompt : String
  name : Option String
  image_url : Option String
deriving DecidableEq

/-- State of the 2D page component (src/frontend/src/app/2d/page.tsx):
the `prompt`, `refinementNotes`, `loading`, `error` and `results` hooks. -/
structure TwoDState where
  prompt : String
  refinementNotes : String
  loading : Bool
  error : Option String
  results : List ConceptImage
deriving DecidableEq

/-- The `handleGenerate` handler.  Guard: `if (!prompt.trim()) return;` — a
prompt whose trim is empty short-circuits before any request or state
change.  Otherwise one POST `/generate/2d`; on 2xx the new image is
prepended (`setResults((prev) => [data, ...prev])`), on non-2xx the raw body
text becomes `error`, on a thrown fetch the thrown message does. -/
def handleGenerate (s : TwoDState) (resp : HttpOutcome ConceptImage) :
    TwoDState × Nat :=
  if jsTrim s.prompt = "" then (s, 0)
  else
    match resp with
    | .ok d =>
        ({ s with loading := false, error := none, results := d :: s.results }, 1)
    | .httpError body => ({ s with loading := false, error := some body }, 1)
    | .threw msg => ({ s with loading := false, error := some msg }, 1)

/-- The `handleRefine` handler.  Guard: `if (!refinementText.trim())
return;`.  Otherwise one POST `/refine/2d`; a 2xx response prepends the
refined image as a new entry, leaving every existing entry in `results` in
place. -/
def handleRefine (s : TwoDState) (_imageId : Nat) (refinementText : String)
    (resp : HttpOutcome ConceptImage) : TwoDState × Nat :=
  if jsTrim refinementText = "" then (s, 0)
  else
    match resp with
    | .ok d =>
        ({ s with loading := false, error := none, results := d :: s.results }, 1)
    | .httpError body => ({ s with loading := false, error := some body }, 1)
    | .threw msg => ({ s with loading := false, error := some msg }, 1)

/-- The Prototype JSON held by the Prototype page (fields read: `id`,
`name`, `gif_url`, `obj_url`). -/
structure Prototype where
  id : Nat
  name : Option String
  gif_url : Option String
  obj_url : Option String
deriving DecidableEq

/-- State of the Prototype page component (src/unnamed/part_001): the
`image`, `prototype`, `loading` and `error` hooks. -/
structure PrototypePageState where
  image : Option ConceptImage
  prototype : Option Prototype
  loading : Bool
  error : Option String
deriving DecidableEq

/-- The `handleGeneratePrototype` handler.  Guard: `if (!imageId) return;` —
`imageId` comes from `searchParams.get`, so absent or the empty string is
falsy.  Otherwise one POST `/generate/shap_e`; non-2xx surfaces the raw body
text as `error`, 2xx stores the prototype. -/
def handleGeneratePrototype (imageId : Option String) (s : PrototypePageState)
    (resp : HttpOutcome Prototype) : PrototypePageState × Nat :=
  match imageId with
  | none => (s, 0)
  | some iid =>
    if iid = "" then (s, 0)
    else
      match resp with
      | .ok d => ({ s with prototype := some d, loading := false, error := none }, 1)
      | .httpError body => ({ s with loading := false, error := some body }, 1)
      | .threw msg => ({ s with loading := false, error := some msg }, 1)

/-- The GalleryItem JSON held in the Gallery page's `items` list (fields the
page reads: `id`, `name`, `prompt`, `gif_url`). -/
structure GalleryItem where
  id : Nat
  name : String
  prompt : Option String
  gif_url : Option String
deriving DecidableEq

/-- State of the Gallery page component
(src/frontend/src/app/gallery/page.tsx): the `items` and `loading` hooks. -/
structure GalleryState where
  items : List GalleryItem
  loading : Bool
deriving DecidableEq

/-- Outcome of the DELETE request as `handleDelete` observes it: the request
completed with some HTTP status (the code never reads `res.ok` or
`res.status`), or the fetch itself threw. -/
inductive DeleteOutcome where
  | completed (httpStatus : Nat)
  | threw
deriving DecidableEq

/-- The `handleDelete` handler (src/frontend/src/app/gallery/page.tsx lines
27-34): it awaits the DELETE and then filters the item out of the local list
without inspecting the response status; only a thrown fetch (caught and
logged) skips the filter. -/
def handleDelete (s : GalleryState) (id : Nat) (o : DeleteOutcome) :
    GalleryState :=
  match o with
  | .completed _ => { s with items := s.items.filter (fun i => i.id != id) }
  | .threw => s

/-- Error taxonomy of the spec's Coordinator (§7). -/
inductive CoordError where
  | ValidationError
  | NotFoundError
  | ConflictError
deriving DecidableEq

/-- The backend's FinalizationJob record as the spec describes it (§3). -/
structure FinalizationJob where
  taskId : String
  galleryItemId : Nat
  status : String
  progress : Nat
  errorMessage : Option String
deriving DecidableEq

/-- Modelled from the spec: the backend handler for `POST /generate/meshy`
is not under src/ (only its frontend caller `startTask` is).  Per §4.3 and
§3, starting a FinalizationJob for a GalleryItem that already has a
non-terminal job is rejected with `ConflictError`; otherwise a fresh job is
created with initial status `PENDING` and progress 0. -/
def startFinalization (jobs : List FinalizationJob) (gid : Nat)
    (newTaskId : String) : Except CoordError (List FinalizationJob) :=
  if jobs.any (fun j => j.galleryItemId == gid && !(isTerminalStatus j.status)) then
    .error .ConflictError
  else
    .ok ({ taskId := newTaskId, galleryItemId := gid, status := "PENDING",
           progress := 0, errorMessage := none } :: jobs)

/-- Number of FinalizationJobs recorded for a given GalleryItem. -/
def countJobsFor (jobs : List FinalizationJob) (gid : Nat) : Nat :=
  (jobs.filter (fun j => j.galleryItemId == gid)).length

/-- Modelled from the spec: the Asset Registry (§4.1) is not under src/.  It
holds the three entity stores relevant to gallery deletion. -/
structure Registry where
  conceptImages : List ConceptImage
  prototypes : List Prototype
  galleryItems : List GalleryItem
deriving DecidableEq

/-- Modelled from the spec: `delete(galleryItemId)` of the Asset Registry
(§4.1) — removes only the GalleryItem row, returns `NotFoundError` if
absent, and never touches the Prototype or ConceptImage stores. -/
def deleteGalleryItem (r : Registry) (gid : Nat) : Except CoordError Registry :=
  if r.galleryItems.any (fun i => i.id == gid) then
    .ok { r with galleryItems := r.galleryItems.filter (fun i => i.id != gid) }
  else
    .error .NotFoundError

/-- A fresh FinalizationJob as `startFinalization` creates it. -/
def newJob (gid : Nat) (t : String) : FinalizationJob :=
  { taskId := t, galleryItemId := gid, status := "PENDING", progress := 0,
    errorMessage := none }

theorem pollTick_inactive (s : FinalPageState) (r : PollResult)
    (h : s.intervalActive = false) : pollTick s r = s := by
  simp [pollTick, h]

theorem runPolls_inactive (s : FinalPageState) (rs : List PollResult)
    (h : s.intervalActive = false) : runPolls s rs = s := by
  induction rs with
  | nil => rfl
  | cons r rs ih =>
      show List.foldl pollTick (pollTick s r) rs = s
      rw [pollTick_inactive s r h]
      exact ih

/-- C3: a poll tick whose request fails — non-2xx response (`httpError`) or
thrown fetch (`networkError`) — leaves the page state exactly as it was:
the recorded status, progress and error message are unchanged, the job is
not marked failed, and `intervalActive` is untouched, so the next tick is
still scheduled. -/
theorem poll_transient_failure_is_noop (s : FinalPageState) :
    pollTick s .httpError = s ∧ pollTick s .networkError = s := by
  constructor <;> simp [pollTick]

/-- C4: once a live poll tick adopts a terminal snapshot (`SUCCEEDED` or
`FAILED`), the interval is cleared, so any further sequence of poll tick
outcomes leaves the state unchanged, and no FinalModel fetch outcome ever
changes the recorded job snapshot: the recorded state never changes again. -/
theorem terminal_poll_stops_loop (s : FinalPageState) (d : TaskSnapshot)
    (rs : List PollResult) (resp : HttpOutcome FinalModel)
    (ha : s.intervalActive = true) (ht : isTerminalStatus d.status = true) :
    (pollTick s (.success d)).task = some d ∧
    (pollTick s (.success d)).intervalActive = false ∧
    runPolls (pollTick s (.success d)) rs = pollTick s (.success d) ∧
    (applyModelFetch (pollTick s (.success d)) resp).task = some d := by
  have hstep : pollTick s (.success d) =
      { s with task := some d, intervalActive := !(isTerminalStatus d.status) } := by
    simp [pollTick, ha]
  have hinact : (pollTick s (.success d)).intervalActive = false := by
    rw [hstep]; simp [ht]
  refine ⟨by rw [hstep], hinact, runPolls_inactive _ rs hinact, ?_⟩
  cases resp <;> simp [applyModelFetch] <;> rw [hstep]

theorem terminal_poll_stops_loop_witness :
    (pollTick
        { task := some { task_id := "t1", status := "IN_PROGRESS", progress := 40,
                         error_message := none, gallery_item_id := some 1 },
          model := none, loading := false, error := none, intervalActive := true }
        (.success { task_id := "t1", status := "SUCCEEDED", progress := 100,
                    error_message := none, gallery_item_id := some 1 })).task =
      some { task_id := "t1", status := "SUCCEEDED", progress := 100,
             error_message := none, gallery_item_id := some 1 } ∧
    (pollTick
        { task := some { task_id := "t1", status := "IN_PROGRESS", progress := 40,
                         error_message := none, gallery_item_id := some 1 },
          model := none, loading := false, error := none, intervalActive := true }
        (.success { task_id := "t1", status := "SUCCEEDED", progress := 100,
                    error_message := none, gallery_item_id := some 1 })).intervalActive = false ∧
    runPolls
        (pollTick
          { task := some { task_id := "t1", status := "IN_PROGRESS", progress := 40,
                           error_message := none, gallery_item_id := some 1 },
            model := none, loading := false, error := none, intervalActive := true }
          (.success { task_id := "t1", status := "SUCCEEDED", progress := 100,
                      error_message := none, gallery_item_id := some 1 }))
        [.success { task_id := "t1", status := "IN_PROGRESS", progress := 10,
                    error_message := none, gallery_item_id := some 1 }, .httpError] =
      pollTick
        { task := some { task_id := "t1", status := "IN_PROGRESS", progress := 40,
                         error_message := none, gallery_item_id := some 1 },
          model := none, loading := false, error := none, intervalActive := true }
        (.success { task_id := "t1", status := "SUCCEEDED", progress := 100,
                    error_message := none, gallery_item_id := some 1 }) ∧
    (applyModelFetch
        (pollTick
          { task := some { task_id := "t1", status := "IN_PROGRESS", progress := 40,
                           error_message := none, gallery_item_id := some 1 },
            model := none, loading := false, error := none, intervalActive := true }
          (.success { task_id := "t1", status := "SUCCEEDED", progress := 100,
                      error_message := none, gallery_item_id := some 1 }))
        (.httpError "boom")).task =
      some { task_id := "t1", status := "SUCCEEDED", progress := 100,
             error_message := none, gallery_item_id := some 1 } :=
  terminal_poll_stops_loop _ _ _ _ (by rfl) (by rfl)

/-- C1 counterexample: with the recorded snapshot at progress 50, a live
tick receiving a successful non-terminal response at progress 30 is not
ignored — it changes the recorded state and drops the recorded progress to
30, so recorded progress is not monotonically non-decreasing and a
lower-progress non-terminal response is adopted rather than ignored. -/
theorem poll_lower_progress_adopted_cex :
    isTerminalStatus "IN_PROGRESS" = false ∧
    (30 : Nat) < recordedProgress
        { task := some { task_id := "t1", status := "IN_PROGRESS", progress := 50,
                         error_message := none, gallery_item_id := some 1 },
          model := none, loading := false, error := none, intervalActive := true } ∧
    pollTick
        { task := some { task_id := "t1", status := "IN_PROGRESS", progress := 50,
                         error_message := none, gallery_item_id := some 1 },
          model := none, loading := false, error := none, intervalActive := true }
        (.success { task_id := "t1", status := "IN_PROGRESS", progress := 30,
                    error_message := none, gallery_item_id := some 1 }) ≠
      { task := some { task_id := "t1", status := "IN_PROGRESS", progress := 50,
                       error_message := none, gallery_item_id := some 1 },
        model := none, loading := false, error := none, intervalActive := true } ∧
    recordedProgress
        (pollTick
          { task := some { task_id := "t1", status := "IN_PROGRESS", progress := 50,
                           error_message := none, gallery_item_id := some 1 },
            model := none, loading := false, error := none, intervalActive := true }
          (.success { task_id := "t1", status := "IN_PROGRESS", progress := 30,
                      error_message := none, gallery_item_id := some 1 })) = 30 := by
  refine ⟨rfl, by decide, ?_, rfl⟩
  intro h
  have := congrArg (fun st => recordedProgress st) h
  simp [pollTick, recordedProgress] at this

/-- C1 (amended): a live poll tick adopts a successful response verbatim —
whatever progress it reports — so recorded progress does not decrease across
a tick exactly when the response reports at least the recorded progress
(failed ticks leave the state unchanged). -/
theorem poll_progress_adopted_verbatim (s : FinalPageState) (d : TaskSnapshot)
    (ha : s.intervalActive = true) (hmono : recordedProgress s ≤ d.progress) :
    (pollTick s (.success d)).task = some d ∧
    recordedProgress s ≤ recordedProgress (pollTick s (.success d)) := by
  have hstep : pollTick s (.success d) =
      { s with task := some d, intervalActive := !(isTerminalStatus d.status) } := by
    simp [pollTick, ha]
  rw [hstep]
  exact ⟨rfl, hmono⟩

theorem poll_progress_adopted_verbatim_witness :
    (pollTick
        { task := some { task_id := "t1", status := "IN_PROGRESS", progress := 40,
                         error_message := none, gallery_item_id := some 1 },
          model := none, loading := false, error := none, intervalActive := true }
        (.success { task_id := "t1", status := "IN_PROGRESS", progress := 60,
                    error_message := none, gallery_item_id := some 1 })).task =
      some { task_id := "t1", status := "IN_PROGRESS", progress := 60,
             error_message := none, gallery_item_id := some 1 } ∧
    recordedProgress
        { task := some { task_id := "t1", status := "IN_PROGRESS", progress := 40,
                         error_message := none, gallery_item_id := some 1 },
          model := none, loading := false, error := none, intervalActive := true } ≤
      recordedProgress
        (pollTick
          { task := some { task_id := "t1", status := "IN_PROGRESS", progress := 40,
                           error_message := none, gallery_item_id := some 1 },
            model := none, loading := false, error := none, intervalActive := true }
          (.success { task_id := "t1", status := "IN_PROGRESS", progress := 60,
                      error_message := none, gallery_item_id := some 1 })) :=
  poll_progress_adopted_verbatim _ _ (by rfl) (by decide)

/-- C5 counterexample: the FinalModel-fetch effect depends on
`[task?.gallery_item_id, task?.status]` and its guard checks only
`gallery_item_id`, so when the first adopted snapshot already carries a
`gallery_item_id` while its status is still `IN_PROGRESS`, the GET is issued
on that render — before any `SUCCEEDED` status exists — and a trace that
later reaches `SUCCEEDED` issues it a second time: the fetch is neither
performed exactly once nor only after success. -/
theorem finalmodel_fetch_before_success_cex :
    TaskSnapshot.status { task_id := "t1", status := "IN_PROGRESS", progress := 40,
                          error_message := none, gallery_item_id := some 1 } ≠ "SUCCEEDED" ∧
    countModelFetchesFromMount none
        [some { task_id := "t1", status := "IN_PROGRESS", progress := 40,
                error_message := none, gallery_item_id := some 1 }] = 1 ∧
    countModelFetchesFromMount none
        [some { task_id := "t1", status := "IN_PROGRESS", progress := 40,
                error_message := none, gallery_item_id := some 1 },
         some { task_id := "t1", status := "SUCCEEDED", progress := 100,
                error_message := none, gallery_item_id := some 1 }] = 2 := by
  refine ⟨by decide, ?_, ?_⟩ <;>
    simp [countModelFetchesFromMount, countModelFetches, modelEffectDeps,
      modelFetchIssued]

/-- C5 (amended): the FinalModel GET is issued at every render where the
effect's `(gallery_item_id, status)` dependency pair changed and the
snapshot carries a truthy `gallery_item_id` — regardless of whether the
status is `SUCCEEDED` — and the fetch outcome never touches the recorded job
snapshot: a non-2xx response or a thrown fetch changes nothing at all, and a
2xx response only sets `model`, so the job's terminal status is never
reverted by a failing (or succeeding) fetch. -/
theorem finalmodel_fetch_characterization (prev : Option TaskSnapshot)
    (t : TaskSnapshot) (s : FinalPageState) (m : FinalModel) (body msg : String)
    (hdeps : modelEffectDeps (some t) ≠ modelEffectDeps prev)
    (hiss : modelFetchIssued (some t) = true) :
    countModelFetches prev [some t] = 1 ∧
    applyModelFetch s (.httpError body) = s ∧
    applyModelFetch s (.threw msg) = s ∧
    (applyModelFetch s (.ok m)).task = s.task := by
  refine ⟨?_, rfl, rfl, rfl⟩
  simp [countModelFetches, hdeps, hiss]

theorem finalmodel_fetch_characterization_witness :
    countModelFetches none
        [some { task_id := "t1", status := "IN_PROGRESS", progress := 40,
                error_message := none, gallery_item_id := some 1 }] = 1 ∧
    applyModelFetch
        { task := none, model := none, loading := false, error := none,
          intervalActive := false } (.httpError "not ready") =
      { task := none, model := none, loading := false, error := none,
        intervalActive := false } ∧
    applyModelFetch
        { task := none, model := none, loading := false, error := none,
          intervalActive := false } (.threw "network") =
      { task := none, model := none, loading := false, error := none,
        intervalActive := false } ∧
    (applyModelFetch
        { task := none, model := none, loading := false, error := none,
          intervalActive := false }
        (.ok { obj_url := some "a.obj", fbx_url := none, texture_url := none })).task =
      FinalPageState.task
        { task := none, model := none, loading := false, error := none,
          intervalActive := false } :=
  finalmodel_fetch_characterization _ _ _ _ _ _ (by decide) (by rfl)

/-- C6 counterexample: `handleGenerate` with a whitespace-only prompt is a
silent no-op — no request goes out, no ConceptImage is recorded, and no
error of any kind is surfaced (the error state stays `none`), so the
operation does not fail with a ValidationError. -/
theorem empty_prompt_silent_cex :
    handleGenerate
        { prompt := "   ", refinementNotes := "", loading := false,
          error := none, results := [] } (.threw "network down") =
      ({ prompt := "   ", refinementNotes := "", loading := false,
         error := none, results := [] }, 0) ∧
    (handleGenerate
        { prompt := "   ", refinementNotes := "", loading := false,
          error := none, results := [] } (.threw "network down")).1.error = none ∧
    (handleGenerate
        { prompt := "   ", refinementNotes := "", loading := false,
          error := none, results := [] } (.threw "network down")).1.results = [] := by
  have h : jsTrim "   " = "" := by decide
  refine ⟨?_, ?_, ?_⟩ <;> simp [handleGenerate, h]

/-- C6 (amended): invoking generate-2D-concept with an empty or
whitespace-only prompt is a silent client-side no-op: the guard returns
before any request is issued, so no ConceptImage is recorded and the page
state — including the error field — is left exactly unchanged (no
ValidationError or any other failure is surfaced). -/
theorem empty_prompt_is_noop (s : TwoDState) (resp : HttpOutcome ConceptImage)
    (h : jsTrim s.prompt = "") : handleGenerate s resp = (s, 0) := by
  simp [handleGenerate, h]

theorem empty_prompt_is_noop_witness :
    handleGenerate
        { prompt := " ", refinementNotes := "n", loading := false,
          error := none, results := [] } (.threw "x") =
      ({ prompt := " ", refinementNotes := "n", loading := false,
         error := none, results := [] }, 0) :=
  empty_prompt_is_noop _ _ (by rfl)

/-- C7: a successful refinement prepends the refined image as a new entry:
the new results list is exactly the new image consed onto the old one, so
every previously recorded image — the refined original included — is still
present, unchanged and in its original relative order; nothing is mutated or
replaced in place.  Exactly one request is issued. -/
theorem refine_appends_new_entry (s : TwoDState) (imageId : Nat)
    (refinementText : String) (d : ConceptImage)
    (h : jsTrim refinementText ≠ "") :
    (handleRefine s imageId refinementText (.ok d)).1.results = d :: s.results ∧
    (handleRefine s imageId refinementText (.ok d)).2 = 1 := by
  constructor <;> simp [handleRefine, h]

theorem refine_appends_new_entry_witness :
    (handleRefine
        { prompt := "a red cube", refinementNotes := "", loading := false,
          error := none,
          results := [{ id := 1, prompt := "a red cube", name := some "Concept",
                        image_url := some "a.png" }] }
        1 "more metallic"
        (.ok { id := 2, prompt := "a red cube", name := some "Refined",
               image_url := some "b.png" })).1.results =
      { id := 2, prompt := "a red cube", name := some "Refined",
        image_url := some "b.png" } ::
        [{ id := 1, prompt := "a red cube", name := some "Concept",
           image_url := some "a.png" }] ∧
    (handleRefine
        { prompt := "a red cube", refinementNotes := "", loading := false,
          error := none,
          results := [{ id := 1, prompt := "a red cube", name := some "Concept",
                        image_url := some "a.png" }] }
        1 "more metallic"
        (.ok { id := 2, prompt := "a red cube", name := some "Refined",
               image_url := some "b.png" })).2 = 1 :=
  refine_appends_new_entry _ _ _ _ (by decide)

/-- C2: starting a FinalizationJob for a GalleryItem with no existing job
succeeds and records exactly one job for it; a second start attempt while
that job is still non-terminal (`PENDING`) fails with `ConflictError`,
leaving exactly one job.  On the frontend, the surfaced conflict (a non-2xx
response) leaves the recorded task unchanged — no second job appears
anywhere — and the raw body text becomes the error.  The conflict check is
modelled from the spec since the backend handler is not under src/. -/
theorem start_finalization_conflict (jobs0 : List FinalizationJob) (gid : Nat)
    (t1 t2 : String) (sf : FinalPageState) (pid body : String)
    (h : ∀ j ∈ jobs0, j.galleryItemId ≠ gid) (hp : pid ≠ "") :
    startFinalization jobs0 gid t1 = Except.ok (newJob gid t1 :: jobs0) ∧
    countJobsFor (newJob gid t1 :: jobs0) gid = 1 ∧
    startFinalization (newJob gid t1 :: jobs0) gid t2 =
      Except.error CoordError.ConflictError ∧
    (startTask (some pid) sf (.httpError body)).1.task = sf.task ∧
    (startTask (some pid) sf (.httpError body)).1.error = some body := by
  have hnone : ∀ j ∈ jobs0,
      (j.galleryItemId == gid && !(isTerminalStatus j.status)) = false := by
    intro j hj
    simp [h j hj]
  have hany : jobs0.any
      (fun j => j.galleryItemId == gid && !(isTerminalStatus j.status)) = false := by
    rw [List.any_eq_false]
    intro j hj
    simp [hnone j hj]
  have hfilter : jobs0.filter (fun j => j.galleryItemId == gid) = [] := by
    rw [List.filter_eq_nil_iff]
    intro j hj
    simp [h j hj]
  refine ⟨?_, ?_, ?_, ?_, ?_⟩
  · simp [startFinalization, hany, newJob]
  · simp [countJobsFor, List.filter, newJob, hfilter]
  · simp [startFinalization, newJob, isTerminalStatus]
  · simp [startTask, hp]
  · simp [startTask, hp]

theorem start_finalization_conflict_witness :
    startFinalization [] 1 "t1" = Except.ok (newJob 1 "t1" :: []) ∧
    countJobsFor (newJob 1 "t1" :: []) 1 = 1 ∧
    startFinalization (newJob 1 "t1" :: []) 1 "t2" =
      Except.error CoordError.ConflictError ∧
    (startTask (some "7")
        { task := none, model := none, loading := false, error := none,
          intervalActive := false }
        (.httpError "ConflictError: job already running")).1.task =
      FinalPageState.task
        { task := none, model := none, loading := false, error := none,
          intervalActive := false } ∧
    (startTask (some "7")
        { task := none, model := none, loading := false, error := none,
          intervalActive := false }
        (.httpError "ConflictError: job already running")).1.error =
      some "ConflictError: job already running" :=
  start_finalization_conflict [] 1 "t1" "t2" _ "7" _ (by simp) (by decide)

/-- C8: deleting GalleryItem `gid` removes exactly the entries with id `gid`
from the gallery list (every other entry is kept unchanged and in order, as
the filter equation states, and no entry with id `gid` survives), and the
Registry delete — modelled from the spec since the backend is not under
src/ — removes only the GalleryItem row: the Prototype and ConceptImage
stores are untouched. -/
theorem delete_gallery_item_frame (gs : GalleryState) (gid st : Nat)
    (r r' : Registry) (hdel : deleteGalleryItem r gid = Except.ok r') :
    (handleDelete gs gid (.completed st)).items =
      gs.items.filter (fun i => i.id != gid) ∧
    ((handleDelete gs gid (.completed st)).items.all
      (fun i => i.id != gid)) = true ∧
    r'.galleryItems = r.galleryItems.filter (fun i => i.id != gid) ∧
    r'.prototypes = r.prototypes ∧
    r'.conceptImages = r.conceptImages := by
  have hreg :
      r' = { r with galleryItems := r.galleryItems.filter (fun i => i.id != gid) } := by
    unfold deleteGalleryItem at hdel
    by_cases hc : r.galleryItems.any (fun i => i.id == gid) = true
    · rw [if_pos hc] at hdel
      injection hdel with h
      exact h.symm
    · rw [if_neg hc] at hdel
      cases hdel
  refine ⟨rfl, ?_, ?_, ?_, ?_⟩
  · simp only [handleDelete, List.all_eq_true]
    intro i hi
    exact (List.mem_filter.mp hi).2
  · rw [hreg]
  · rw [hreg]
  · rw [hreg]

theorem delete_gallery_item_frame_witness :
    (handleDelete
        { items := [{ id := 1, name := "sword", prompt := some "a sword",
                      gif_url := some "s.gif" },
                    { id := 2, name := "shield", prompt := some "a shield",
                      gif_url := some "h.gif" }], loading := false }
        1 (.completed 204)).items =
      List.filter (fun i => i.id != 1)
        (GalleryState.items
          { items := [{ id := 1, name := "sword", prompt := some "a sword",
                        gif_url := some "s.gif" },
                      { id := 2, name := "shield", prompt := some "a shield",
                        gif_url := some "h.gif" }], loading := false }) ∧
    ((handleDelete
        { items := [{ id := 1, name := "sword", prompt := some "a sword",
                      gif_url := some "s.gif" },
                    { id := 2, name := "shield", prompt := some "a shield",
                      gif_url := some "h.gif" }], loading := false }
        1 (.completed 204)).items.all (fun i => i.id != 1)) = true ∧
    Registry.galleryItems
        { conceptImages := [{ id := 1, prompt := "a sword", name := none,
                              image_url := some "a.png" }],
          prototypes := [{ id := 1, name := some "sword", gif_url := some "s.gif",
                           obj_url := none }],
          galleryItems := ([] : List GalleryItem) } =
      List.filter (fun i => i.id != 1)
        (Registry.galleryItems
          { conceptImages := [{ id := 1, prompt := "a sword", name := none,
                                image_url := some "a.png" }],
            prototypes := [{ id := 1, name := some "sword",
                             gif_url := some "s.gif", obj_url := none }],
            galleryItems := [{ id := 1, name := "sword", prompt := some "a sword",
                               gif_url := some "s.gif" }] }) ∧
    Registry.prototypes
        { conceptImages := [{ id := 1, prompt := "a sword", name := none,
                              image_url := some "a.png" }],
          prototypes := [{ id := 1, name := some "sword", gif_url := some "s.gif",
                           obj_url := none }],
          galleryItems := ([] : List GalleryItem) } =
      Registry.prototypes
        { conceptImages := [{ id := 1, prompt := "a sword", name := none,
                              image_url := some "a.png" }],
          prototypes := [{ id := 1, name := some "sword", gif_url := some "s.gif",
                           obj_url := none }],
          galleryItems := [{ id := 1, name := "sword", prompt := some "a sword",
                             gif_url := some "s.gif" }] } ∧
    Registry.conceptImages
        { conceptImages := [{ id := 1, prompt := "a sword", name := none,
                              image_url := some "a.png" }],
          prototypes := [{ id := 1, name := some "sword", gif_url := some "s.gif",
                           obj_url := none }],
          galleryItems := ([] : List GalleryItem) } =
      Registry.conceptImages
        { conceptImages := [{ id := 1, prompt := "a sword", name := none,
                              image_url := some "a.png" }],
          prototypes := [{ id := 1, name := some "sword", gif_url := some "s.gif",
                           obj_url := none }],
          galleryItems := [{ id := 1, name := "sword", prompt := some "a sword",
                             gif_url := some "s.gif" }] } :=
  delete_gallery_item_frame _ 1 204 _ _ (by rfl)

/-- C9: for each of the four synchronous stage handlers — generate 2D,
refine 2D, generate prototype, start finalization — a non-2xx response
surfaces exactly the raw response body text as the error (the state is
otherwise only reset out of its loading flag, with no result recorded), and
exactly one request is issued: there is no automatic retry. -/
theorem non2xx_surfaced_raw_no_retry
    (sg sr : TwoDState) (rid : Nat) (rtxt : String)
    (sp : PrototypePageState) (iid : String)
    (sf : FinalPageState) (pid : String) (body : String)
    (hg : jsTrim sg.prompt ≠ "") (hr : jsTrim rtxt ≠ "")
    (hi : iid ≠ "") (hp : pid ≠ "") :
    handleGenerate sg (.httpError body) =
      ({ sg with loading := false, error := some body }, 1) ∧
    handleRefine sr rid rtxt (.httpError body) =
      ({ sr with loading := false, error := some body }, 1) ∧
    handleGeneratePrototype (some iid) sp (.httpError body) =
      ({ sp with loading := false, error := some body }, 1) ∧
    startTask (some pid) sf (.httpError body) =
      ({ sf with loading := false, error := some body }, 1) := by
  refine ⟨?_, ?_, ?_, ?_⟩
  · simp [handleGenerate, hg]
  · simp [handleRefine, hr]
  · simp [handleGeneratePrototype, hi]
  · simp [startTask, hp]

theorem non2xx_surfaced_raw_no_retry_witness :
    handleGenerate
        { prompt := "a red cube", refinementNotes := "", loading := true,
          error := none, results := [] } (.httpError "backend exploded") =
      ({ prompt := "a red cube", refinementNotes := "", loading := false,
         error := some "backend exploded", results := [] }, 1) ∧
    handleRefine
        { prompt := "a red cube", refinementNotes := "", loading := true,
          error := none, results := [] } 1 "shinier" (.httpError "backend exploded") =
      ({ prompt := "a red cube", refinementNotes := "", loading := false,
         error := some "backend exploded", results := [] }, 1) ∧
    handleGeneratePrototype (some "1")
        { image := none, prototype := none, loading := true, error := none }
        (.httpError "backend exploded") =
      ({ image := none, prototype := none, loading := false,
         error := some "backend exploded" }, 1) ∧
    startTask (some "1")
        { task := none, model := none, loading := true, error := none,
          intervalActive := false } (.httpError "backend exploded") =
      ({ task := none, model := none, loading := false,
         error := some "backend exploded", intervalActive := false }, 1) :=
  non2xx_surfaced_raw_no_retry _ _ 1 "shinier" _ "1" _ "1" "backend exploded"
    (by decide) (by decide) (by decide) (by decide)

/-- C10: the gallery delete handler filters the item out of the displayed
list whenever the DELETE request completes, whatever the HTTP status — the
status is universally quantified and never inspected, so the item disappears
even on a 404 or 500 — and leaves the list unchanged exactly when the fetch
itself threw. -/
theorem delete_never_inspects_status (gs : GalleryState) (gid st : Nat) :
    handleDelete gs gid (.completed st) =
      { gs with items := gs.items.filter (fun i => i.id != gid) } ∧
    handleDelete gs gid .threw = gs := by
  constructor <;> rfl

end RobloxAsset
